import Mathlib

/-!
WireTuner Explorer thumbnail provider — shallow embedding

A shallow embedding of `src/tools/platform/explorer/preview_handler.cpp`
(the `WireTunerThumbnailProvider` COM object) together with proofs about
its thumbnail generation-and-caching pipeline.

The Windows API surface the code touches (file system queries, process
creation, GDI+ decoding and bitmap-handle conversion, environment
variables) is abstracted into an `Env` record of oracles: each oracle
records what the corresponding API call would return during the single
`GetThumbnail` call under study.  The control flow of the C++ methods is
translated statement by statement; instrumentation fields (`searchedForCLI`,
`launchAttempted`, `waited`, `converted`) record which operations were
executed, without influencing the data flow.
-/

namespace WireTuner

/-- An ARGB color, mirroring `Gdiplus::Color` (alpha, red, green, blue). -/
structure ARGB where
  a : Nat
  r : Nat
  g : Nat
  b : Nat
  deriving DecidableEq, Repr

/-- Opaque white `Color(255, 255, 255)`, the placeholder background
(preview_handler.cpp line 244). -/
def white : ARGB := ⟨255, 255, 255, 255⟩

/-- The opaque brand blue `Color(255, 33, 150, 243)` of the placeholder
circle (preview_handler.cpp line 248). -/
def brandBlue : ARGB := ⟨255, 33, 150, 243⟩

/-- The two `HRESULT` values this translation unit produces on the paths
under study: `S_OK` (success) and `E_FAIL` (failure).  `FAILED(hr)` holds
exactly on `E_FAIL`. -/
inductive HRESULT where
  | S_OK
  | E_FAIL
  deriving DecidableEq, Repr

/-- The `FAILED` macro: an `HRESULT` denotes failure iff it is negative;
of the two values produced here only `E_FAIL` is. -/
def FAILED : HRESULT → Bool
  | .S_OK => false
  | .E_FAIL => true

/-! ## Decimal rendering (model of `swprintf_s` with `%llu` / `%u`)

The cache key is produced by `swprintf_s(cacheKey, L"%s-%llu-%u.png", ...)`
(line 147).  `%llu`/`%u` print the integer in decimal with no padding.  We
model this with a fuel-indexed structural recursion so that the kernel can
evaluate it on concrete numbers. -/

/-- Decimal digits of `n`, most significant first, as characters
(`'0' + d`), with explicit fuel.  Fuel `n + 1` always suffices since the
recursive call is on `n / 10 < n`. -/
def decReprAux : Nat → Nat → List Char
  | 0, _ => []
  | fuel + 1, n =>
    if n < 10 then [Char.ofNat (48 + n)]
    else decReprAux fuel (n / 10) ++ [Char.ofNat (48 + n % 10)]

/-- Decimal rendering of a natural number, the model of printf `%llu`/`%u`. -/
def decRepr (n : Nat) : String := ⟨decReprAux (n + 1) n⟩

/-- Value of a digit string read back left to right (each character `'0'+d`
contributes `d`).  Used only to prove `decRepr` injective. -/
def decValue (l : List Char) : Nat :=
  l.foldl (fun acc c => acc * 10 + (c.toNat - 48)) 0

/-! ## Path helpers -/

/-- Model of `PathFindFileNameW`: the trailing component of the path, i.e.
everything after the last path separator (`\` or `/`). -/
def pathFindFileName (s : String) : String :=
  ⟨s.data.foldl (fun acc c => if c = '\\' ∨ c = '/' then [] else acc ++ [c]) []⟩

/-! ## The environment of one `GetThumbnail` call -/

/-- A decoded raster image as produced by `Gdiplus::Bitmap::FromFile` with
status `Ok`; only the dimensions and an abstract content tag are relevant. -/
structure DecodedImage where
  width : Nat
  height : Nat
  content : Nat
  deriving DecidableEq, Repr

/-- The in-memory placeholder bitmap, as the record of the GDI+ drawing
performed by `GeneratePlaceholder` (lines 238-257): a `cx × cx` ARGB bitmap,
a white `FillRectangle(0, 0, cx, cx)`, and a brand-blue
`FillEllipse(margin, margin, cx - margin*2, cx - margin*2)`. -/
structure PlaceholderBitmap where
  width : Nat
  height : Nat
  bgColor : ARGB
  bgRectX : Nat
  bgRectY : Nat
  bgRectW : Nat
  bgRectH : Nat
  circleColor : ARGB
  ellipseX : Nat
  ellipseY : Nat
  ellipseW : Nat
  ellipseH : Nat
  deriving DecidableEq, Repr

/-- The bitmap handed to `Bitmap::GetHBITMAP`: either an image decoded from
a file (cache entry or renderer output) or the in-memory placeholder. -/
inductive LoadedImage where
  | fromFile (img : DecodedImage)
  | fromPlaceholder (p : PlaceholderBitmap)
  deriving DecidableEq, Repr

/-- Oracles for the Windows API calls made during one `GetThumbnail` call.
Each field records what the corresponding call returns at that point of the
run. -/
structure Env where
  /-- Result of `GetTempPathW`; per its contract it ends with a backslash. -/
  tempPath : String
  /-- Outcome of `GetFileAttributesExW` on a path: `some t` with `t` the 64-bit
  `ftLastWriteTime` quad word, or `none` when the call fails. -/
  getAttrs : String → Option Nat
  /-- Answer of `PathFileExistsW` on a path. -/
  fileExists : String → Bool
  /-- Value of the `PATH` variable as read by `GetEnvironmentVariableW`
  (empty when unset). -/
  pathVar : String
  /-- Whether `CreateProcessW` succeeds on a given command line. -/
  createProcessOk : String → Bool
  /-- When the launched child exits: `some t` = after `t` ms, `none` =
  never (within any observation). -/
  childExitTimeMs : Option Nat
  /-- The value `GetExitCodeProcess` stores (the preset `1` when that call
  itself fails). -/
  exitCode : Nat
  /-- Result of `Bitmap::FromFile` followed by the `GetLastStatus() == Ok` check:
  `some img` when the file decodes, `none` otherwise. -/
  decode : String → Option DecodedImage
  /-- Outcome of `Bitmap::GetHBITMAP`: `some h` when a bitmap handle is produced,
  `none` when the out-parameter is left `NULL`. -/
  toHBITMAP : LoadedImage → Option Nat

/-- The provider's state after `IInitializeWithFile::Initialize`
(line 87): the file path stored in `m_filePath`. -/
structure Provider where
  m_filePath : String
  deriving DecidableEq, Repr

/-! ## FindWireTunerCLI (lines 202-233) -/

/-- The fixed candidate install locations, in listed order
(lines 204-208). -/
def fixedSearchPaths : List String :=
  ["C:\\Program Files\\WireTuner\\wiretuner.exe",
   "C:\\Program Files (x86)\\WireTuner\\wiretuner.exe"]

/-- The PATH-scanning loop of `FindWireTunerCLI` (lines 220-229):
`while ((pos = path.find(L';')) != npos) { dir = path.substr(0, pos);
… ; path.erase(0, pos + 1); }`.  The accumulator is the current segment
read so far; on `;` the segment is tested, on end of input the loop exits
with nothing found (the final segment, after the last `;`, is never
tested — exactly as in the source). -/
def scanLoop (fe : String → Bool) (acc : List Char) : List Char → String
  | [] => ""
  | c :: rest =>
    if c = ';' then
      let exePath : String := ⟨acc⟩ ++ "\\wiretuner.exe"
      if fe exePath then exePath else scanLoop fe [] rest
    else scanLoop fe (acc ++ [c]) rest

/-- Lines 202-233 (`FindWireTunerCLI`): first existing fixed candidate,
else the PATH scan, else the empty string (not found). -/
def FindWireTunerCLI (env : Env) : String :=
  match fixedSearchPaths.find? env.fileExists with
  | some p => p
  | none =>
    if env.pathVar.length > 0 then scanLoop env.fileExists [] env.pathVar.data
    else ""

/-! ## Renderer invocation (lines 174-196) -/

/-- The `WaitForSingleObject` timeout, line 185: 5000 ms. -/
def timeoutMs : Nat := 5000

/-- Result of the CreateProcessW/WaitForSingleObject/GetExitCodeProcess
block, with instrumentation of whether a wait was performed. -/
structure InvokeResult where
  ok : Bool
  waited : Bool
  deriving DecidableEq, Repr

/-- Lines 174-196: launch the renderer; on launch failure report failure
with no wait; otherwise wait up to `timeoutMs` and report success iff the
wait returns `WAIT_OBJECT_0` and the exit code is `0`. -/
def invokeRenderer (env : Env) (cmdLine : String) : InvokeResult :=
  if env.createProcessOk cmdLine then
    let waitObject0 :=
      match env.childExitTimeMs with
      | some t => t ≤ timeoutMs
      | none => false
    { ok := waitObject0 && (env.exitCode == 0), waited := true }
  else
    { ok := false, waited := false }

/-! ## GenerateThumbnail (lines 128-197) -/

/-- The cache directory, line 133: `<temp>\wiretuner-thumbnails\`. -/
def cacheDirOf (env : Env) : String := env.tempPath ++ "wiretuner-thumbnails\\"

/-- The cache key, lines 146-150:
`swprintf_s(cacheKey, L"%s-%llu-%u.png", PathFindFileNameW(m_filePath),
modTime.QuadPart, cx)`. -/
def cacheKeyOf (filePath : String) (modTime cx : Nat) : String :=
  pathFindFileName filePath ++ "-" ++ decRepr modTime ++ "-" ++ decRepr cx ++ ".png"

/-- The renderer command line, lines 166-171:
`"<cli>" --generate-thumbnail "<file>" "<out>" --size <cx>`. -/
def cmdLineOf (cliPath filePath outPath : String) (cx : Nat) : String :=
  "\"" ++ cliPath ++ "\" --generate-thumbnail \"" ++ filePath ++ "\" \"" ++
    outPath ++ "\" --size " ++ decRepr cx

/-- Result of `GenerateThumbnail`: the `HRESULT`, the out-parameter
`outPath` (left empty when the function fails before setting it), and
instrumentation of which operations ran. -/
structure GenResult where
  hr : HRESULT
  outPath : String
  searchedForCLI : Bool
  launchAttempted : Bool
  waited : Bool
  deriving DecidableEq, Repr

/-- Lines 128-197 (`GenerateThumbnail`): read the file attributes (failure
→ `E_FAIL` with `outPath` untouched); derive the cache path; on an existing
cache file return `S_OK` at once; otherwise locate the CLI (empty → `E_FAIL`),
build the command line and invoke the renderer. -/
def GenerateThumbnail (self : Provider) (env : Env) (cx : Nat) : GenResult :=
  match env.getAttrs self.m_filePath with
  | none =>
    { hr := .E_FAIL, outPath := "", searchedForCLI := false,
      launchAttempted := false, waited := false }
  | some modTime =>
    let outPath := cacheDirOf env ++ cacheKeyOf self.m_filePath modTime cx
    if env.fileExists outPath then
      { hr := .S_OK, outPath := outPath, searchedForCLI := false,
        launchAttempted := false, waited := false }
    else
      let cliPath := FindWireTunerCLI env
      if cliPath = "" then
        { hr := .E_FAIL, outPath := outPath, searchedForCLI := true,
          launchAttempted := false, waited := false }
      else
        let inv := invokeRenderer env (cmdLineOf cliPath self.m_filePath outPath cx)
        { hr := if inv.ok then .S_OK else .E_FAIL, outPath := outPath,
          searchedForCLI := true, launchAttempted := true, waited := inv.waited }

/-! ## GeneratePlaceholder (lines 238-257) -/

/-- The drawing performed by `GeneratePlaceholder` (lines 240-250): a
`cx × cx` 32-bit ARGB bitmap, white-filled rectangle `(0, 0, cx, cx)`, and
a brand-blue ellipse in the box `(margin, margin, cx - margin*2,
cx - margin*2)` with `margin = cx / 4` (integer division).  The method
ignores the provider state (in particular `m_filePath`). -/
def GeneratePlaceholder (_self : Provider) (cx : Nat) : PlaceholderBitmap :=
  let margin := cx / 4
  { width := cx, height := cx,
    bgColor := white, bgRectX := 0, bgRectY := 0, bgRectW := cx, bgRectH := cx,
    circleColor := brandBlue,
    ellipseX := margin, ellipseY := margin,
    ellipseW := cx - margin * 2, ellipseH := cx - margin * 2 }

/-- Modelled rasterization of the two GDI+ fills (library code outside this
repository): a pixel shows the ellipse color exactly when its center lies in
the closed ellipse inscribed in the bounding box, and the background color
otherwise.  In doubled coordinates the pixel center is `(2x+1, 2y+1)`, the
ellipse center `(2·ellipseX + ellipseW, 2·ellipseY + ellipseH)` and the
semi-axes `ellipseW` and `ellipseH`. -/
def placeholderPixel (p : PlaceholderBitmap) (x y : Nat) : ARGB :=
  let dx : Int := (2 * x + 1 : Int) - (2 * p.ellipseX + p.ellipseW)
  let dy : Int := (2 * y + 1 : Int) - (2 * p.ellipseY + p.ellipseH)
  if dx ^ 2 * (p.ellipseH : Int) ^ 2 + dy ^ 2 * (p.ellipseW : Int) ^ 2 ≤
      (p.ellipseW : Int) ^ 2 * (p.ellipseH : Int) ^ 2
  then p.circleColor else p.bgColor

/-! ## GetThumbnail (lines 93-118) -/

/-- Result of `GetThumbnail`: the `HRESULT`, the `*phbmp` out-parameter
(`none` = `NULL`), and instrumentation: which bitmap was handed to
`GetHBITMAP` and whether the renderer was searched for / launched. -/
structure ThumbResult where
  hr : HRESULT
  phbmp : Option Nat
  converted : Option LoadedImage
  searchedForCLI : Bool
  launchAttempted : Bool
  deriving DecidableEq, Repr

/-- The body of `GeneratePlaceholder` as called from `GetThumbnail`
(lines 238-257 at a call site): draw the placeholder, convert it with
`GetHBITMAP`, and return `S_OK` iff `*phbmp` is non-null.  The
`GenResult` argument only supplies the instrumentation flags accumulated
so far. -/
def runPlaceholder (self : Provider) (env : Env) (cx : Nat) (g : GenResult) :
    ThumbResult :=
  let p := GeneratePlaceholder self cx
  match env.toHBITMAP (.fromPlaceholder p) with
  | some h =>
    { hr := .S_OK, phbmp := some h, converted := some (.fromPlaceholder p),
      searchedForCLI := g.searchedForCLI, launchAttempted := g.launchAttempted }
  | none =>
    { hr := .E_FAIL, phbmp := none, converted := some (.fromPlaceholder p),
      searchedForCLI := g.searchedForCLI, launchAttempted := g.launchAttempted }

/-- Lines 93-118 (`GetThumbnail`): run `GenerateThumbnail`; on failure fall
back to the placeholder; otherwise decode the file at `outPath` (decode
failure → placeholder) and convert the decoded bitmap, returning `S_OK`
iff `*phbmp` is non-null. -/
def GetThumbnail (self : Provider) (env : Env) (cx : Nat) : ThumbResult :=
  let g := GenerateThumbnail self env cx
  if FAILED g.hr then runPlaceholder self env cx g
  else
    match env.decode g.outPath with
    | none => runPlaceholder self env cx g
    | some img =>
      match env.toHBITMAP (.fromFile img) with
      | some h =>
        { hr := .S_OK, phbmp := some h, converted := some (.fromFile img),
          searchedForCLI := g.searchedForCLI, launchAttempted := g.launchAttempted }
      | none =>
        { hr := .E_FAIL, phbmp := none, converted := some (.fromFile img),
          searchedForCLI := g.searchedForCLI, launchAttempted := g.launchAttempted }

/-! ## Concrete environments used as witnesses and counterexamples -/

/-- A baseline environment: no file readable, nothing on disk, no PATH,
process launch fails, decoding fails, bitmap-handle conversion succeeds
(handle `1`). -/
def envBase : Env where
  tempPath := "C:\\Temp\\"
  getAttrs := fun _ => none
  fileExists := fun _ => false
  pathVar := ""
  createProcessOk := fun _ => false
  childExitTimeMs := none
  exitCode := 1
  decode := fun _ => none
  toHBITMAP := fun _ => some 1

/-- Environment where the source file is unreadable and bitmap-handle
conversion fails. -/
def envNoConvert : Env := { envBase with toHBITMAP := fun _ => none }

/-- Environment with a readable source file, an existing cache entry, and a
decoder that yields a 100 × 100 image for any path. -/
def envSmallCached : Env :=
  { envBase with
    getAttrs := fun _ => some 7
    fileExists := fun _ => true
    decode := fun _ => some ⟨100, 100, 0⟩ }

/-- Environment whose only existing file is `C:\tools\wiretuner.exe` and
whose PATH is `C:\tools` (no trailing semicolon). -/
def envPathTools : Env :=
  { envBase with
    fileExists := fun s => s == "C:\\tools\\wiretuner.exe"
    pathVar := "C:\\tools" }

/-- Same as `envPathTools` but with a trailing semicolon on PATH. -/
def envPathToolsSemi : Env := { envPathTools with pathVar := "C:\\tools;" }

/-- Environment with a readable source file whose every path exists (so the
derived cache entry is a hit) and a decoder yielding a 256 × 256 image. -/
def envCacheHit : Env :=
  { envBase with
    getAttrs := fun _ => some 1700000000
    fileExists := fun _ => true
    decode := fun _ => some ⟨256, 256, 1⟩ }

/-! ## Helper lemmas: decimal rendering is injective -/

theorem data_append (a b : String) : (a ++ b).data = a.data ++ b.data := by
  cases a; cases b; rfl

theorem toNat_digitChar (n : Nat) (h : n < 10) :
    (Char.ofNat (48 + n)).toNat = 48 + n := by
  interval_cases n <;> rfl

theorem decValue_append_digit (l : List Char) (c : Char) :
    decValue (l ++ [c]) = decValue l * 10 + (c.toNat - 48) := by
  simp [decValue, List.foldl_append]

theorem decValue_decReprAux :
    ∀ fuel n, n < fuel → decValue (decReprAux fuel n) = n := by
  intro fuel
  induction fuel with
  | zero => intro n h; omega
  | succ fuel ih =>
    intro n h
    unfold decReprAux
    by_cases h10 : n < 10
    · simp only [h10, if_pos]
      simp [decValue, toNat_digitChar n h10]
    · simp only [h10, if_neg, if_false]
      rw [decValue_append_digit]
      have hmod : n % 10 < 10 := Nat.mod_lt _ (by omega)
      rw [toNat_digitChar _ hmod]
      have hdivlt : n / 10 < n := Nat.div_lt_self (by omega) (by omega)
      rw [ih (n / 10) (by omega)]
      omega

theorem decReprAux_inj {m n : Nat}
    (h : decReprAux (m + 1) m = decReprAux (n + 1) n) : m = n := by
  have hm := decValue_decReprAux (m + 1) m (Nat.lt_succ_self m)
  have hn := decValue_decReprAux (n + 1) n (Nat.lt_succ_self n)
  rw [← hm, ← hn, h]

theorem decRepr_inj {m n : Nat} (h : decRepr m = decRepr n) : m = n :=
  decReprAux_inj (congrArg String.data h)

/-- Changing the modification time (path and size fixed) changes the key. -/
theorem cacheKeyOf_t_inj (p : String) {t1 t2 n : Nat}
    (h : cacheKeyOf p t1 n = cacheKeyOf p t2 n) : t1 = t2 := by
  have hd := congrArg String.data h
  simp only [cacheKeyOf, data_append, List.append_assoc] at hd
  have h1 := List.append_cancel_left hd
  have h2 := List.append_cancel_left h1
  have h3 := List.append_cancel_right h2
  exact decReprAux_inj h3

/-- Changing the requested size (path and time fixed) changes the key. -/
theorem cacheKeyOf_n_inj (p : String) {t n1 n2 : Nat}
    (h : cacheKeyOf p t n1 = cacheKeyOf p t n2) : n1 = n2 := by
  have hd := congrArg String.data h
  simp only [cacheKeyOf, data_append, List.append_assoc] at hd
  have h1 := List.append_cancel_left hd
  have h2 := List.append_cancel_left h1
  have h3 := List.append_cancel_left h2
  have h4 := List.append_cancel_left h3
  have h5 := List.append_cancel_right h4
  exact decReprAux_inj h5

theorem string_ext {a b : String} (h : a.data = b.data) : a = b := by
  cases a; cases b; exact congrArg String.mk h

/-! ## Claim theorems -/

/-- C4: the derived cache entry location is the system temp directory
joined with `wiretuner-thumbnails` and the file
`<baseFileName>-<t as decimal integer>-<n>.png`; in particular
`draft.wiretuner` with modification time 1700000000 and size 256 yields
the key `draft.wiretuner-1700000000-256.png`. -/
theorem C4_cache_location (self : Provider) (env : Env) (cx t : Nat)
    (h : env.getAttrs self.m_filePath = some t) :
    (GenerateThumbnail self env cx).outPath =
      env.tempPath ++ "wiretuner-thumbnails\\" ++
        (pathFindFileName self.m_filePath ++ "-" ++ decRepr t ++ "-" ++
          decRepr cx ++ ".png") ∧
    cacheKeyOf "draft.wiretuner" 1700000000 256 =
      "draft.wiretuner-1700000000-256.png" := by
  refine ⟨?_, by decide⟩
  have hout : (GenerateThumbnail self env cx).outPath =
      cacheDirOf env ++ cacheKeyOf self.m_filePath t cx := by
    unfold GenerateThumbnail
    rw [h]
    dsimp only
    split <;> (try split) <;> rfl
  rw [hout]
  apply string_ext
  simp [cacheDirOf, cacheKeyOf, data_append, List.append_assoc]

theorem C4_cache_location_witness :
    (GenerateThumbnail ⟨"C:\\Users\\me\\draft.wiretuner"⟩ envCacheHit 256).outPath =
      envCacheHit.tempPath ++ "wiretuner-thumbnails\\" ++
        (pathFindFileName "C:\\Users\\me\\draft.wiretuner" ++ "-" ++
          decRepr 1700000000 ++ "-" ++ decRepr 256 ++ ".png") ∧
    cacheKeyOf "draft.wiretuner" 1700000000 256 =
      "draft.wiretuner-1700000000-256.png" :=
  C4_cache_location ⟨"C:\\Users\\me\\draft.wiretuner"⟩ envCacheHit 256 1700000000 rfl

/-- C5: with the path fixed, changing the modification time (size fixed) or
the size (time fixed) always yields a different derived cache key. -/
theorem C5_cacheKey_sensitivity (p : String) (t1 t2 n1 n2 : Nat) :
    (t1 ≠ t2 → cacheKeyOf p t1 n1 ≠ cacheKeyOf p t2 n1) ∧
    (n1 ≠ n2 → cacheKeyOf p t1 n1 ≠ cacheKeyOf p t1 n2) :=
  ⟨fun ht h => ht (cacheKeyOf_t_inj p h),
   fun hn h => hn (cacheKeyOf_n_inj p h)⟩

theorem C5_cacheKey_sensitivity_witness :
    cacheKeyOf "draft.wiretuner" 1700000000 256 ≠
      cacheKeyOf "draft.wiretuner" 1700000001 256 ∧
    cacheKeyOf "draft.wiretuner" 1700000000 256 ≠
      cacheKeyOf "draft.wiretuner" 1700000000 512 :=
  ⟨(C5_cacheKey_sensitivity "draft.wiretuner" 1700000000 1700000001 256 512).1
      (by decide),
   (C5_cacheKey_sensitivity "draft.wiretuner" 1700000000 1700000001 256 512).2
      (by decide)⟩

/-- C7: the renderer invocation reports success iff the child launches,
exits within the 5000 ms wait bound and has exit status 0; when the launch
itself fails, failure is reported without any wait. -/
theorem C7_invoke_outcome (env : Env) (cmd : String) :
    ((invokeRenderer env cmd).ok = true ↔
      env.createProcessOk cmd = true ∧
      (∃ t, env.childExitTimeMs = some t ∧ t ≤ timeoutMs) ∧
      env.exitCode = 0) ∧
    (env.createProcessOk cmd = false →
      (invokeRenderer env cmd).ok = false ∧
      (invokeRenderer env cmd).waited = false) := by
  unfold invokeRenderer
  by_cases hl : env.createProcessOk cmd
  · cases ht : env.childExitTimeMs <;> simp [hl, ht]
  · simp [hl]

theorem C7_invoke_outcome_witness :
    (invokeRenderer envBase "cmd").ok = false ∧
    (invokeRenderer envBase "cmd").waited = false :=
  (C7_invoke_outcome envBase "cmd").2 rfl

/-- C3 (code bug): the PATH-scanning loop never examines the segment after
the final `;`, so with `PATH = C:\tools` (no trailing semicolon) and
`C:\tools\wiretuner.exe` the only existing file, `FindWireTunerCLI` reports
not-found; appending a semicolon makes the very same directory win. -/
theorem C3_last_path_dir_skipped :
    envPathTools.fileExists "C:\\tools\\wiretuner.exe" = true ∧
    envPathTools.fileExists "C:\\Program Files\\WireTuner\\wiretuner.exe" = false ∧
    envPathTools.fileExists
      "C:\\Program Files (x86)\\WireTuner\\wiretuner.exe" = false ∧
    envPathTools.pathVar = "C:\\tools" ∧
    FindWireTunerCLI envPathTools = "" ∧
    FindWireTunerCLI envPathToolsSemi = "C:\\tools\\wiretuner.exe" := by
  decide

/-- C8 counterexample: at size 6 the placeholder circle's bounding box is
`6 - 2*(6/4) = 4` pixels wide, which is not half of 6. -/
theorem C8_counterexample :
    (GeneratePlaceholder ⟨"a.wiretuner"⟩ 6).ellipseW = 4 ∧
    (6 : Nat) / 2 = 3 ∧
    (GeneratePlaceholder ⟨"a.wiretuner"⟩ 6).ellipseW ≠ 6 / 2 := by
  decide

/-- C8 (amended): for every size ≥ 1 the placeholder is an exactly
size × size bitmap with an opaque white full-size background rectangle and
a brand-blue filled circle with margin `size / 4` on each side (hence
centered); its diameter is `size - 2*(size / 4)`, which equals `size / 2`
whenever 4 divides the size. -/
theorem C8_placeholder_geometry (self : Provider) (cx : Nat) (h : 1 ≤ cx) :
    (GeneratePlaceholder self cx).width = cx ∧
    (GeneratePlaceholder self cx).height = cx ∧
    (GeneratePlaceholder self cx).bgColor = white ∧
    (GeneratePlaceholder self cx).bgRectX = 0 ∧
    (GeneratePlaceholder self cx).bgRectY = 0 ∧
    (GeneratePlaceholder self cx).bgRectW = cx ∧
    (GeneratePlaceholder self cx).bgRectH = cx ∧
    (GeneratePlaceholder self cx).circleColor = brandBlue ∧
    (GeneratePlaceholder self cx).ellipseX = cx / 4 ∧
    (GeneratePlaceholder self cx).ellipseY = cx / 4 ∧
    (GeneratePlaceholder self cx).ellipseW = cx - 2 * (cx / 4) ∧
    (GeneratePlaceholder self cx).ellipseH = cx - 2 * (cx / 4) ∧
    (GeneratePlaceholder self cx).ellipseX +
      (GeneratePlaceholder self cx).ellipseW + cx / 4 = cx ∧
    (4 ∣ cx → (GeneratePlaceholder self cx).ellipseW = cx / 2) := by
  unfold GeneratePlaceholder
  refine ⟨rfl, rfl, rfl, rfl, rfl, rfl, rfl, rfl, rfl, rfl, ?_, ?_, ?_, ?_⟩ <;>
    dsimp only <;> omega

theorem C8_placeholder_geometry_witness :
    (GeneratePlaceholder ⟨"a.wiretuner"⟩ 8).ellipseW = 8 / 2 :=
  (C8_placeholder_geometry ⟨"a.wiretuner"⟩ 8 (by decide)).2.2.2.2.2.2.2.2.2.2.2.2.2
    (by decide)

/-- Both instrumentation flags of `GenerateThumbnail` pass through
through unchanged on every branch. -/
theorem GetThumbnail_flags (self : Provider) (env : Env) (cx : Nat) :
    (GetThumbnail self env cx).searchedForCLI =
      (GenerateThumbnail self env cx).searchedForCLI ∧
    (GetThumbnail self env cx).launchAttempted =
      (GenerateThumbnail self env cx).launchAttempted := by
  unfold GetThumbnail runPlaceholder
  dsimp only
  split
  · split <;> exact ⟨rfl, rfl⟩
  · split
    · split <;> exact ⟨rfl, rfl⟩
    · split <;> exact ⟨rfl, rfl⟩

/-- Whenever `GetThumbnail` hands a placeholder to `GetHBITMAP`, that
placeholder is the one drawn for the current request's size. -/
theorem converted_placeholder_eq (self : Provider) (env : Env) (cx : Nat)
    (p : PlaceholderBitmap)
    (h : (GetThumbnail self env cx).converted = some (.fromPlaceholder p)) :
    p = GeneratePlaceholder self cx := by
  unfold GetThumbnail runPlaceholder at h
  dsimp only at h
  split at h
  · split at h <;> simp_all
  · split at h
    · split at h <;> simp_all
    · split at h <;> simp_all

/-- On every branch `GetThumbnail` hands some bitmap to `GetHBITMAP`. -/
theorem converted_isSome (self : Provider) (env : Env) (cx : Nat) :
    ∃ img, (GetThumbnail self env cx).converted = some img := by
  unfold GetThumbnail runPlaceholder
  dsimp only
  split
  · split <;> exact ⟨_, rfl⟩
  · split
    · split <;> exact ⟨_, rfl⟩
    · split <;> exact ⟨_, rfl⟩

/-- C6: when the derived cache entry already exists (and the file identity
is readable), `GetThumbnail` neither searches for nor launches the
renderer, and `GenerateThumbnail` succeeds immediately. -/
theorem C6_cache_hit_skips_renderer (self : Provider) (env : Env) (cx t : Nat)
    (hattr : env.getAttrs self.m_filePath = some t)
    (hhit : env.fileExists
      (cacheDirOf env ++ cacheKeyOf self.m_filePath t cx) = true) :
    (GetThumbnail self env cx).searchedForCLI = false ∧
    (GetThumbnail self env cx).launchAttempted = false ∧
    (GenerateThumbnail self env cx).hr = .S_OK := by
  have hg : GenerateThumbnail self env cx =
      { hr := .S_OK,
        outPath := cacheDirOf env ++ cacheKeyOf self.m_filePath t cx,
        searchedForCLI := false, launchAttempted := false, waited := false } := by
    unfold GenerateThumbnail
    rw [hattr]
    dsimp only
    rw [if_pos hhit]
  have hflags := GetThumbnail_flags self env cx
  rw [hflags.1, hflags.2, hg]
  exact ⟨rfl, rfl, rfl⟩

theorem C6_cache_hit_skips_renderer_witness :
    (GetThumbnail ⟨"a.wiretuner"⟩ envCacheHit 256).searchedForCLI = false ∧
    (GetThumbnail ⟨"a.wiretuner"⟩ envCacheHit 256).launchAttempted = false ∧
    (GenerateThumbnail ⟨"a.wiretuner"⟩ envCacheHit 256).hr = HRESULT.S_OK :=
  C6_cache_hit_skips_renderer ⟨"a.wiretuner"⟩ envCacheHit 256 1700000000 rfl rfl

/-- C9: on every execution path of `GetThumbnail` the returned status is a
success code exactly when the output bitmap handle is non-null. -/
theorem C9_success_iff_bitmap (self : Provider) (env : Env) (cx : Nat) :
    ((GetThumbnail self env cx).hr == HRESULT.S_OK) =
      (GetThumbnail self env cx).phbmp.isSome := by
  unfold GetThumbnail runPlaceholder
  dsimp only
  split
  · split <;> rfl
  · split
    · split <;> rfl
    · split <;> rfl

/-- C10: the fallback placeholder depends only on the requested size — any
two requests of the same size that both reach the placeholder produce the
identical bitmap, pixel for pixel, regardless of file path, contents or
modification time. -/
theorem C10_placeholder_noninterference (s1 s2 : Provider) (e1 e2 : Env)
    (cx : Nat) (p1 p2 : PlaceholderBitmap)
    (h1 : (GetThumbnail s1 e1 cx).converted = some (.fromPlaceholder p1))
    (h2 : (GetThumbnail s2 e2 cx).converted = some (.fromPlaceholder p2)) :
    p1 = p2 ∧ ∀ x y, placeholderPixel p1 x y = placeholderPixel p2 x y := by
  have k1 := converted_placeholder_eq s1 e1 cx p1 h1
  have k2 := converted_placeholder_eq s2 e2 cx p2 h2
  have hpp : p1 = p2 := by rw [k1, k2]; rfl
  exact ⟨hpp, fun x y => by rw [hpp]⟩

theorem C10_placeholder_noninterference_witness :
    GeneratePlaceholder (⟨"a.wiretuner"⟩ : Provider) 8 =
      GeneratePlaceholder (⟨"b.wiretuner"⟩ : Provider) 8 :=
  (C10_placeholder_noninterference ⟨"a.wiretuner"⟩ ⟨"b.wiretuner"⟩
    envBase envBase 8
    (GeneratePlaceholder ⟨"a.wiretuner"⟩ 8)
    (GeneratePlaceholder ⟨"b.wiretuner"⟩ 8) rfl rfl).1

/-- C1 counterexample: with the source file unreadable (a listed internal
failure) and the bitmap-handle conversion failing, `GetThumbnail` returns
`E_FAIL` — an internal failure surfaced to the caller as an error result. -/
theorem C1_counterexample :
    envNoConvert.getAttrs "a.wiretuner" = none ∧
    (GetThumbnail ⟨"a.wiretuner"⟩ envNoConvert 64).hr = HRESULT.E_FAIL ∧
    (GetThumbnail ⟨"a.wiretuner"⟩ envNoConvert 64).hr ≠ HRESULT.S_OK := by
  refine ⟨rfl, rfl, by decide⟩

/-- C1 (amended): provided the conversion of the in-memory placeholder
bitmap to a host bitmap handle succeeds, every listed internal failure
(unreadable file identity, renderer missing, launch failure, timeout,
nonzero exit — all of which make `GenerateThumbnail` fail — or a decode
failure of the cached/rendered file) makes `GetThumbnail` return a success
status together with the placeholder of exactly the requested size. -/
theorem C1_fallback_totality (self : Provider) (env : Env) (cx hnd : Nat)
    (hconv : env.toHBITMAP
      (.fromPlaceholder (GeneratePlaceholder self cx)) = some hnd)
    (hfail : (GenerateThumbnail self env cx).hr = .E_FAIL ∨
      env.decode (GenerateThumbnail self env cx).outPath = none) :
    (GetThumbnail self env cx).hr = .S_OK ∧
    (GetThumbnail self env cx).phbmp = some hnd ∧
    (GetThumbnail self env cx).converted =
      some (.fromPlaceholder (GeneratePlaceholder self cx)) ∧
    (GeneratePlaceholder self cx).width = cx ∧
    (GeneratePlaceholder self cx).height = cx := by
  have hrp : ∀ g, runPlaceholder self env cx g =
      { hr := .S_OK, phbmp := some hnd,
        converted := some (.fromPlaceholder (GeneratePlaceholder self cx)),
        searchedForCLI := g.searchedForCLI,
        launchAttempted := g.launchAttempted } := by
    intro g
    unfold runPlaceholder
    dsimp only
    rw [hconv]
  unfold GetThumbnail
  dsimp only
  rcases hfail with hf | hf
  · rw [hf]
    simp [FAILED, hrp]
    exact ⟨rfl, rfl⟩
  · cases hg : (GenerateThumbnail self env cx).hr
    · simp [FAILED, hf, hrp]
      exact ⟨rfl, rfl⟩
    · simp [FAILED, hrp]
      exact ⟨rfl, rfl⟩

theorem C1_fallback_totality_witness :
    (GetThumbnail ⟨"a.wiretuner"⟩ envBase 64).hr = HRESULT.S_OK ∧
    (GetThumbnail ⟨"a.wiretuner"⟩ envBase 64).phbmp = some 1 ∧
    (GetThumbnail ⟨"a.wiretuner"⟩ envBase 64).converted =
      some (.fromPlaceholder (GeneratePlaceholder ⟨"a.wiretuner"⟩ 64)) ∧
    (GeneratePlaceholder (⟨"a.wiretuner"⟩ : Provider) 64).width = 64 ∧
    (GeneratePlaceholder (⟨"a.wiretuner"⟩ : Provider) 64).height = 64 :=
  C1_fallback_totality ⟨"a.wiretuner"⟩ envBase 64 1 rfl (Or.inl rfl)

/-- C2 counterexample: a pre-existing cache entry decodes to a 100 × 100
image while 256 is requested; `GetThumbnail` returns success with that
image unchanged — the decoded dimensions are never checked. -/
theorem C2_counterexample :
    (GetThumbnail ⟨"a.wiretuner"⟩ envSmallCached 256).hr = HRESULT.S_OK ∧
    (GetThumbnail ⟨"a.wiretuner"⟩ envSmallCached 256).converted =
      some (.fromFile ⟨100, 100, 0⟩) ∧
    (100 : Nat) ≠ 256 := by
  refine ⟨rfl, rfl, by decide⟩

/-- C2 (amended): every successful `GetThumbnail` call returns some image,
and an image coming from the placeholder branch has width and height
exactly the requested size; an image decoded from a cache entry or the
renderer's output is returned with whatever dimensions it decoded at. -/
theorem C2_returned_size (self : Provider) (env : Env) (cx : Nat)
    (_hok : (GetThumbnail self env cx).hr = .S_OK) :
    (∃ img, (GetThumbnail self env cx).converted = some img) ∧
    ∀ p, (GetThumbnail self env cx).converted = some (.fromPlaceholder p) →
      p.width = cx ∧ p.height = cx := by
  refine ⟨converted_isSome self env cx, fun p hp => ?_⟩
  rw [converted_placeholder_eq self env cx p hp]
  exact ⟨rfl, rfl⟩

theorem C2_returned_size_witness :
    (GeneratePlaceholder (⟨"a.wiretuner"⟩ : Provider) 64).width = 64 ∧
    (GeneratePlaceholder (⟨"a.wiretuner"⟩ : Provider) 64).height = 64 :=
  (C2_returned_size ⟨"a.wiretuner"⟩ envBase 64 rfl).2
    (GeneratePlaceholder ⟨"a.wiretuner"⟩ 64) rfl

end WireTuner
